import Mathlib

/-!
# DiskSentry: a shallow embedding of `src/disksentry.py`

This file embeds the health-scoring and remediation pipeline of DiskSentry
(`DiskSentry.get_smart_data`, `store_smart_data`, `predict_disk_health`,
`backup_critical_data`, `monitor_loop`) as executable Lean definitions and
proves properties of the embedding.

Modelling conventions:
* Python floats that carry scores/thresholds are modelled as `ℚ` (the values
  involved are exact decimal literals and results of exact divisions).
* Python exceptions are modelled with `Except String`; a `.error` value is an
  exception propagating out of the modelled function.
* External processes (`smartctl`, `mount`, `rsync`, `umount`, `mkdir`) are
  modelled by oracles giving their success/failure or output.
* The `sklearn.ensemble.IsolationForest.fit_predict` call is modelled by an
  oracle `clf` producing the per-row classification, composed with the
  documented sklearn input validation, which raises `ValueError` when the
  input matrix contains a missing value (NaN).
-/

/-- Equality of modelled outcomes (`Except`) is decidable, so the closed
theorems below can be settled by evaluation. -/
instance exceptDecEq {ε α : Type} [DecidableEq ε] [DecidableEq α] : DecidableEq (Except ε α)
  | Except.error e, Except.error f =>
    if h : e = f then isTrue (congrArg Except.error h)
    else isFalse (fun hh => h (Except.error.inj hh))
  | Except.error _, Except.ok _ => isFalse (fun hh => Except.noConfusion hh)
  | Except.ok _, Except.error _ => isFalse (fun hh => Except.noConfusion hh)
  | Except.ok x, Except.ok y =>
    if h : x = y then isTrue (congrArg Except.ok h)
    else isFalse (fun hh => h (Except.ok.inj hh))

namespace DiskSentry

/-- Split a character list at every separator (a character satisfying `p`),
keeping empty pieces — the behaviour of Python `str.split(sep)`.  `acc` holds
the current piece reversed. -/
def splitListAux (p : Char → Bool) : List Char → List Char → List (List Char)
  | [], acc => [acc.reverse]
  | c :: cs, acc =>
    if p c then acc.reverse :: splitListAux p cs []
    else splitListAux p cs (c :: acc)

def splitList (p : Char → Bool) (cs : List Char) : List (List Char) :=
  splitListAux p cs []

/-- Python `str.split('\n')`: split on newline characters, keeping empty pieces. -/
def splitLinesNL (s : String) : List String :=
  (splitList (fun c => c = '\n') s.data).map (fun l => String.mk l)

/-- Python `str.split()` with no argument: split on whitespace runs, dropping
empty pieces. -/
def pySplitWs (line : String) : List String :=
  ((splitList Char.isWhitespace line.data).map (fun l => String.mk l)).filter
    (fun s => s ≠ "")

/-- Python `str.strip()`: drop leading and trailing whitespace. -/
def pyStrip (s : String) : String :=
  String.mk (((s.data.dropWhile Char.isWhitespace).reverse.dropWhile
    Char.isWhitespace).reverse)

/-- Read a run of decimal digits into a number; `none` if a non-digit occurs. -/
def natOfDigitsAux : List Char → ℕ → Option ℕ
  | [], acc => some acc
  | c :: cs, acc =>
    if c.isDigit then natOfDigitsAux cs (acc * 10 + (c.toNat - 48))
    else none

/-- Python `int(s)` for the token shapes occurring in the parsed tool output:
an optional sign followed by a non-empty run of decimal digits; `none` models
a raised `ValueError`. -/
def pyInt? (s : String) : Option Int :=
  match s.data with
  | [] => none
  | '-' :: [] => none
  | '-' :: rest => (natOfDigitsAux rest 0).map (fun n => -(n : Int))
  | '+' :: [] => none
  | '+' :: rest => (natOfDigitsAux rest 0).map (fun n => (n : Int))
  | cs => (natOfDigitsAux cs 0).map (fun n => (n : Int))

/-- Byte-order (lexicographic) comparison of the character lists of two
strings: the SQLite BINARY collation used by `ORDER BY timestamp`, and the
label order pandas sorts pivot columns by, for the ASCII strings occurring
here. -/
def lexLe : List Char → List Char → Bool
  | [], _ => true
  | _ :: _, [] => false
  | a :: as, b :: bs => if a = b then lexLe as bs else decide (a < b)

def strLe (a b : String) : Bool :=
  lexLe a.data b.data

/-- One parsed SMART attribute, the dict built in `get_smart_data`
(`'attribute'`, `'value'`, `'threshold'`, `'raw_value'`).  The dict key
`'attribute'` is the field `attr` here. -/
structure SmartAttr where
  attr : String
  value : Int
  threshold : Int
  raw_value : String
deriving DecidableEq, Repr

/-- One whitespace-split data line of `smartctl -A` output, as consumed by
`get_smart_data`: builds the dict from fields 1, 3, 5 and 9 in that
evaluation order.  `int(parts[3])` and `int(parts[5])` raise `ValueError` on
non-integer text; `parts[9]` raises `IndexError` when the line has fewer than
10 fields.  This function is only called under the guard `parts.length ≥ 9`. -/
def parseSmartLine (parts : List String) : Except String SmartAttr := do
  let a := parts.getD 1 ""
  let v ← match pyInt? (parts.getD 3 "") with
    | some n => Except.ok n
    | none => Except.error "ValueError: invalid literal for int"
  let t ← match pyInt? (parts.getD 5 "") with
    | some n => Except.ok n
    | none => Except.error "ValueError: invalid literal for int"
  let raw ← match parts.get? 9 with
    | some s => Except.ok s
    | none => Except.error "IndexError: list index out of range"
  Except.ok ⟨a, v, t, raw⟩

/-- The loop body of `get_smart_data` over the lines after the two header
lines: a blank line is skipped, a line with fewer than 9 whitespace-separated
fields is skipped, any other line is parsed with `parseSmartLine`; a raised
exception aborts the whole loop. -/
def parseSmartLines : List String → Except String (List SmartAttr)
  | [] => Except.ok []
  | line :: rest =>
    if pyStrip line ≠ "" then
      let parts := pySplitWs line
      if parts.length ≥ 9 then do
        let a ← parseSmartLine parts
        let tail ← parseSmartLines rest
        Except.ok (a :: tail)
      else parseSmartLines rest
    else parseSmartLines rest

/-- `result.stdout.split('\n')[2:]` followed by the parsing loop: the first
two header lines are dropped unexamined. -/
def parseFromLines (ls : List String) : Except String (List SmartAttr) :=
  parseSmartLines (ls.drop 2)

/-- `DiskSentry.get_smart_data` applied to the captured stdout of a successful
`smartctl -A` run. -/
def get_smart_data (stdout : String) : Except String (List SmartAttr) :=
  parseFromLines (splitLinesNL stdout)

/-- `DiskSentry.get_smart_data` including the subprocess call: a
`CalledProcessError` from `smartctl` (the `.error` case of the oracle) is
caught inside the function, which then returns `[]`; any exception raised by
the parsing itself is not caught and propagates. -/
def getSmartDataChecked (res : Except String String) : Except String (List SmartAttr) :=
  match res with
  | Except.error _ => Except.ok []
  | Except.ok out => get_smart_data out

/-- One row of the `smart_data` table
(`timestamp, device, attribute, value, threshold, raw_value`). -/
structure HistRow where
  timestamp : String
  device : String
  attr : String
  value : Int
  threshold : Int
  raw_value : String
deriving DecidableEq, Repr

/-- One row of the `disk_predictions` table
(`timestamp, device, health_score, prediction_confidence`). -/
structure PredRow where
  timestamp : String
  device : String
  health_score : ℚ
  prediction_confidence : ℚ
deriving DecidableEq, Repr

/-- The SQLite database: the two append-only tables. -/
structure DB where
  smart : List HistRow
  preds : List PredRow
deriving DecidableEq, Repr

def emptyDB : DB := ⟨[], []⟩

/-- Insert `x` into `l`, before the first element `y` with `le x y = true`. -/
def insertBy {α : Type} (le : α → α → Bool) (x : α) : List α → List α
  | [] => [x]
  | y :: ys => if le x y then x :: y :: ys else y :: insertBy le x ys

/-- Stable insertion sort by the comparator `le`. -/
def sortBy {α : Type} (le : α → α → Bool) : List α → List α
  | [] => []
  | x :: xs => insertBy le x (sortBy le xs)

/-- Comparator for `ORDER BY timestamp DESC` on the TEXT column (SQLite BINARY
collation is byte order, which agrees with `String` order on the ASCII
timestamps used here); ties keep insertion order (a modelling choice — SQLite
leaves the order of ties unspecified). -/
def tsDescLe (a b : HistRow) : Bool :=
  strLe b.timestamp a.timestamp

/-- The projected row type returned by the history query:
`(attribute, value, threshold)`. -/
abbrev Hist3 := String × Int × Int

/-- The query in `predict_disk_health`:
`SELECT attribute, value, threshold FROM smart_data WHERE device = ?
 ORDER BY timestamp DESC LIMIT 1000`. -/
def fetchHistory (rows : List HistRow) (device : String) : List Hist3 :=
  (((sortBy tsDescLe (rows.filter (fun r => r.device = device))).take 1000).map
    (fun r => (r.attr, r.value, r.threshold)))

/-- The number of stored `smart_data` rows for a device. -/
def histCount (rows : List HistRow) (device : String) : ℕ :=
  (rows.filter (fun r => r.device = device)).length

/-- The column labels of `df.pivot(columns='attribute', values='value')`:
the distinct values of the `attribute` column in sorted order (pandas pivot
sorts the column labels). -/
def pivotColumns (rows : List Hist3) : List String :=
  sortBy strLe (rows.map (fun r => r.1)).dedup

/-- The pivoted row for one source row: the cell in the row's own attribute
column holds its value; every other cell is missing (NaN), not zero. -/
def pivotRow (cols : List String) (r : Hist3) : List (Option Int) :=
  cols.map (fun c => if r.1 = c then some r.2.1 else none)

/-- `df.pivot(columns='attribute', values='value')` with the frame's default
`RangeIndex` (the query selects no timestamp column): the result has one row
per source row — not one row per distinct timestamp. -/
def pivot (rows : List Hist3) : List (List (Option Int)) :=
  rows.map (pivotRow (pivotColumns rows))

/-- Whether the pivoted table contains a missing cell (NaN). -/
def hasMissing (table : List (List (Option Int))) : Bool :=
  table.any (fun row => row.any (fun o => o.isNone))

/-- Strip the `Option` wrapper from a table known to have no missing cell
(only applied in that case). -/
def denseTable (table : List (List (Option Int))) : List (List Int) :=
  table.map (fun row => row.map (fun o => o.getD 0))

/-- `(scores + 1).mean() / 2` over the ±1 classification array. -/
def healthScore (scores : List Int) : ℚ :=
  (((scores.map (fun z => z + 1)).sum : ℤ) : ℚ) / (scores.length : ℚ) / 2

/-- `DiskSentry.predict_disk_health`.  `clf` is the oracle for
`IsolationForest(contamination=0.1, random_state=42).fit_predict` on a table
with no missing cell; per the documented sklearn input validation, `fit`
raises `ValueError` when the input contains NaN, which the modelled function
propagates. -/
def predict_disk_health (clf : List (List Int) → List Int)
    (rows : List HistRow) (device : String) : Except String (ℚ × ℚ) :=
  let data := fetchHistory rows device
  if data = [] then Except.ok (1, 0)
  else
    let table := pivot data
    if hasMissing table then Except.error "ValueError: input contains NaN"
    else
      let scores := clf (denseTable table)
      Except.ok (healthScore scores, min ((data.length : ℚ) / 100) 1)

/-- The backup decision in `monitor_loop`:
`health_score < self.config["backup_threshold"]`. -/
def shouldBackup (health_score backup_threshold : ℚ) : Bool :=
  decide (health_score < backup_threshold)

/-- A Python `datetime.datetime` value as produced by `datetime.now()`. -/
structure PyDatetime where
  year : ℕ
  month : ℕ
  day : ℕ
  hour : ℕ
  minute : ℕ
  second : ℕ
  microsecond : ℕ
deriving DecidableEq, Repr

/-- Zero-pad the decimal rendering of `n` on the left to width `w`
(the behaviour of the zero-padded `strftime` conversions). -/
def padNum (w : ℕ) (n : ℕ) : String :=
  ⟨List.replicate (w - (Nat.repr n).length) '0' ++ (Nat.repr n).data⟩

/-- `datetime.strftime('%Y%m%d_%H%M%S')`: second granularity — the
microsecond field does not appear in the output. -/
def fmtTimestamp (d : PyDatetime) : String :=
  padNum 4 d.year ++ padNum 2 d.month ++ padNum 2 d.day ++ "_" ++
    padNum 2 d.hour ++ padNum 2 d.minute ++ padNum 2 d.second

/-- `os.path.join(a, b)` for an `a` without trailing slash and a relative `b`,
the only shape occurring here. -/
def joinPath (a b : String) : String :=
  a ++ "/" ++ b

/-- The destination computed at the top of `backup_critical_data`:
`os.path.join(backup_location, "backup_" + now.strftime('%Y%m%d_%H%M%S'))`. -/
def backupPath (backup_location : String) (now : PyDatetime) : String :=
  joinPath backup_location ("backup_" ++ fmtTimestamp now)

/-- The five external effects of `backup_critical_data`, in program order:
`os.makedirs(backup_path)`, `os.makedirs(mount_point)`,
`mount`, `rsync`, `umount` (each of the last three with `check=True`). -/
inductive BackupStep where
  | mkBackupDir
  | mkMountDir
  | mount
  | rsync
  | umount
deriving DecidableEq, Repr

/-- The statement order of the `try` block of `backup_critical_data`. -/
def backupSteps : List BackupStep :=
  [BackupStep.mkBackupDir, BackupStep.mkMountDir, BackupStep.mount,
   BackupStep.rsync, BackupStep.umount]

/-- Run the steps in order against a success oracle.  A failing step raises;
the `except` block logs and re-raises, and there is no `finally`, so the
remaining steps — including the unmount — are simply never attempted.
Returns the attempted steps (in order) and whether the run succeeded. -/
def runBackupSteps (oracle : BackupStep → Bool) : List BackupStep → List BackupStep × Bool
  | [] => ([], true)
  | s :: rest =>
    if oracle s then
      let r := runBackupSteps oracle rest
      (s :: r.1, r.2)
    else ([s], false)

/-- `DiskSentry.backup_critical_data`: computes the timestamped destination,
then runs the five external steps in order; returns the destination, the
attempted steps and the success flag (`false` = the run raised). -/
def backup_critical_data (backup_location : String) (now : PyDatetime)
    (oracle : BackupStep → Bool) : String × List BackupStep × Bool :=
  (backupPath backup_location now, runBackupSteps oracle backupSteps)

/-- The externally observable events of one device iteration of
`monitor_loop`, in program order. -/
inductive Event where
  | insertSmartRows (device : String) (n : ℕ)
  | commitSmart
  | insertPred (device : String)
  | commitPred
  | backupDecision (didBackup : Bool)
  | backupCmd (s : BackupStep)
  | deviceDone (device : String)
deriving DecidableEq, Repr

/-- The per-device inputs of one `monitor_loop` iteration: the device name,
the outcome of the `smartctl` subprocess (`.error` = `CalledProcessError`,
`.ok` = captured stdout), the classifier oracle, the backup-step oracle, the
two `datetime.now().isoformat()` strings used for the inserts, and the
configured `backup_threshold`. -/
structure CycleInput where
  device : String
  smartctl : Except String String
  clf : List (List Int) → List Int
  backup : BackupStep → Bool
  tsStore : String
  tsPred : String
  threshold : ℚ

/-- The result of one device iteration: the database afterwards, the events
in order, and the exception (if any) caught by the per-device `except` block. -/
structure CycleResult where
  db : DB
  events : List Event
  err : Option String
deriving Repr

/-- `DiskSentry.store_smart_data`: one `INSERT` per attribute, in order, then
one commit. -/
def storeSmartData (ts device : String) (atts : List SmartAttr) (db : DB) : DB :=
  { db with
    smart := db.smart ++ atts.map (fun a => ⟨ts, device, a.attr, a.value, a.threshold, a.raw_value⟩) }

/-- The body of one device iteration of `monitor_loop`, with the surrounding
`try`/`except` applied: collect SMART data; if non-empty, store it, score the
device, insert and commit the prediction, then — if the score is below the
threshold — run the backup.  Any exception raised anywhere in the body is
caught at this per-device boundary and recorded in `err`. -/
def deviceCycle (inp : CycleInput) (db : DB) : CycleResult :=
  match getSmartDataChecked inp.smartctl with
  | Except.error e => ⟨db, [], some e⟩
  | Except.ok atts =>
    if atts = [] then ⟨db, [], none⟩
    else
      match predict_disk_health inp.clf
          (storeSmartData inp.tsStore inp.device atts db).smart inp.device with
      | Except.error e =>
        ⟨storeSmartData inp.tsStore inp.device atts db,
         [Event.insertSmartRows inp.device atts.length, Event.commitSmart], some e⟩
      | Except.ok (s, c) =>
        if shouldBackup s inp.threshold then
          ⟨{ storeSmartData inp.tsStore inp.device atts db with
              preds := (storeSmartData inp.tsStore inp.device atts db).preds
                ++ [⟨inp.tsPred, inp.device, s, c⟩] },
           [Event.insertSmartRows inp.device atts.length, Event.commitSmart,
            Event.insertPred inp.device, Event.commitPred,
            Event.backupDecision (shouldBackup s inp.threshold)]
             ++ (runBackupSteps inp.backup backupSteps).1.map Event.backupCmd,
           if (runBackupSteps inp.backup backupSteps).2 then none
           else some "Backup failed"⟩
        else
          ⟨{ storeSmartData inp.tsStore inp.device atts db with
              preds := (storeSmartData inp.tsStore inp.device atts db).preds
                ++ [⟨inp.tsPred, inp.device, s, c⟩] },
           [Event.insertSmartRows inp.device atts.length, Event.commitSmart,
            Event.insertPred inp.device, Event.commitPred,
            Event.backupDecision (shouldBackup s inp.threshold)], none⟩

/-- One full pass of `monitor_loop` over the configured devices: each device
is processed in turn with its own `try`/`except`; a `deviceDone` marker
records that the loop reached the end of that device's iteration and moved
on. -/
def monitorCycle : List CycleInput → DB → DB × List Event
  | [], db => (db, [])
  | inp :: rest, db =>
    let r := deviceCycle inp db
    let t := monitorCycle rest r.db
    (t.1, r.events ++ [Event.deviceDone inp.device] ++ t.2)

/-- Selector for `deviceDone` markers in an event trace. -/
def doneDevice? : Event → Option String
  | Event.deviceDone d => some d
  | _ => none

/-! ## Concrete inputs used by the closed theorems and witnesses -/

/-- A classifier oracle that never marks a row anomalous. -/
def clfAllNormal : List (List Int) → List Int :=
  fun t => t.map (fun _ => 1)

/-- A classifier oracle that marks every row anomalous. -/
def clfAllAnomalous : List (List Int) → List Int :=
  fun t => t.map (fun _ => -1)

/-- A backup-step oracle on which every external command succeeds. -/
def allStepsOk : BackupStep → Bool :=
  fun _ => true

/-- A backup-step oracle on which the mount succeeds and the rsync copy
fails (`rsync` exits non-zero, raising `CalledProcessError`). -/
def rsyncFails : BackupStep → Bool :=
  fun s => decide (s ≠ BackupStep.rsync)

/-- A stored history for `/dev/sda` holding two distinct attributes. -/
def twoAttrDb : List HistRow :=
  [⟨"2026-01-01T00:00:00", "/dev/sda", "Raw_Read_Error_Rate", 100, 51, "0"⟩,
   ⟨"2026-01-01T00:00:00", "/dev/sda", "Temperature_Celsius", 35, 0, "35"⟩]

/-- A stored history for `/dev/sda` holding one attribute row. -/
def oneRowDb : List HistRow :=
  [⟨"2026-01-01T00:00:00", "/dev/sda", "Power_On_Hours", 95, 0, "4242"⟩]

/-- A `smartctl -A` output whose single data line has the usual 10 fields. -/
def tenFieldOut : String :=
  "smartctl 7.2\n\nID ATTRIBUTE_NAME FLAG 100 100 050 TYPE UPDATED WHEN_FAILED 42\n"

/-- A `smartctl -A` output whose single data line has exactly 9 fields. -/
def nineFieldOut : String :=
  "smartctl 7.2\n\nID ATTRIBUTE_NAME FLAG 100 100 050 TYPE UPDATED WHEN_FAILED\n"

/-- The whitespace-split fields of the 10-field data line of `tenFieldOut`. -/
def parts10 : List String :=
  ["ID", "ATTRIBUTE_NAME", "FLAG", "100", "100", "050", "TYPE", "UPDATED",
   "WHEN_FAILED", "42"]

/-- A small projected history with two attribute rows. -/
def rows0 : List Hist3 :=
  [("Raw_Read_Error_Rate", 100, 51), ("Temperature_Celsius", 35, 0)]

/-- A start instant for a backup run. -/
def backupTime0 : PyDatetime :=
  ⟨2026, 1, 2, 3, 4, 5, 0⟩

/-- Two start instants inside the same wall-clock second (they differ only in
the microsecond field). -/
def timeMicroA : PyDatetime :=
  ⟨2026, 1, 2, 3, 4, 5, 100⟩

def timeMicroB : PyDatetime :=
  ⟨2026, 1, 2, 3, 4, 5, 200⟩

/-- A cycle in which everything works until the backup: telemetry parses one
attribute, the model marks it anomalous (score `0 < 0.7`), and the triggered
backup fails at the rsync step. -/
def failBackupInput : CycleInput :=
  ⟨"/dev/sda", Except.ok tenFieldOut, clfAllAnomalous, rsyncFails,
   "2026-01-02T03:04:05", "2026-01-02T03:04:06", 7/10⟩

/-- A cycle whose telemetry read fails (`smartctl` raises
`CalledProcessError`). -/
def telFailInput : CycleInput :=
  ⟨"/dev/sdb", Except.error "smartctl exited 2", clfAllNormal, allStepsOk,
   "2026-01-02T03:04:05", "2026-01-02T03:04:06", 7/10⟩

/-! ## Helper lemmas -/

theorem insertBy_perm {α : Type} (le : α → α → Bool) (x : α) (l : List α) :
    List.Perm (insertBy le x l) (x :: l) := by
  induction l with
  | nil => exact List.Perm.refl _
  | cons y ys ih =>
    by_cases h : le x y = true
    · simp only [insertBy, if_pos h]
      exact List.Perm.refl _
    · simp only [insertBy, if_neg h]
      exact List.Perm.trans (List.Perm.cons y ih) (List.Perm.swap x y ys)

theorem sortBy_perm {α : Type} (le : α → α → Bool) (l : List α) :
    List.Perm (sortBy le l) l := by
  induction l with
  | nil => exact List.Perm.refl _
  | cons x xs ih =>
    exact List.Perm.trans (insertBy_perm le x (sortBy le xs)) (List.Perm.cons x ih)

theorem sortBy_length {α : Type} (le : α → α → Bool) (l : List α) :
    (sortBy le l).length = l.length :=
  (sortBy_perm le l).length_eq

theorem sortBy_mem {α : Type} (le : α → α → Bool) (x : α) (l : List α) :
    x ∈ sortBy le l ↔ x ∈ l :=
  (sortBy_perm le l).mem_iff

theorem sortBy_nodup {α : Type} (le : α → α → Bool) (l : List α) (h : l.Nodup) :
    (sortBy le l).Nodup :=
  ((sortBy_perm le l).nodup_iff).mpr h

/-- The fetched history is the stored per-device history capped at 1000 rows. -/
theorem fetchHistory_length (rows : List HistRow) (device : String) :
    (fetchHistory rows device).length = min 1000 (histCount rows device) := by
  unfold fetchHistory histCount
  rw [List.length_map, List.length_take, sortBy_length]

/-- The 1000-row query cap never bites in the confidence formula, because the
formula saturates at 100 rows already. -/
theorem conf_cap (k : ℕ) :
    min (((min 1000 k : ℕ) : ℚ) / 100) 1 = min ((k : ℚ) / 100) 1 := by
  rcases le_total 1000 k with h | h
  · rw [min_eq_left h]
    rw [min_eq_right (by norm_num : (1 : ℚ) ≤ (1000 : ℕ) / 100)]
    rw [min_eq_right]
    rw [le_div_iff₀ (by norm_num : (0 : ℚ) < 100)]
    calc (1 : ℚ) * 100 = ((100 : ℕ) : ℚ) := by norm_num
      _ ≤ (k : ℚ) := by exact_mod_cast le_trans (by norm_num) h
  · rw [min_eq_right h]

theorem string_append_cancel_left (a b c : String) : a ++ b = a ++ c ↔ b = c := by
  constructor
  · intro h
    obtain ⟨la⟩ := a
    obtain ⟨lb⟩ := b
    obtain ⟨lc⟩ := c
    have hd : la ++ lb = la ++ lc := congrArg String.data h
    exact congrArg String.mk (List.append_cancel_left hd)
  · intro h
    rw [h]

/-- The events of a single device iteration never include a `deviceDone`
marker (the loop adds that marker itself after the `except` block). -/
theorem deviceCycle_no_done (inp : CycleInput) (db : DB) :
    (deviceCycle inp db).events.filterMap doneDevice? = [] := by
  unfold deviceCycle
  split
  · rfl
  · split
    · rfl
    · split
      · simp [doneDevice?]
      · split
        · simp [doneDevice?, List.filterMap_append, List.filterMap_map, Function.comp]
        · simp [doneDevice?]

/-! ## Claim theorems -/

/-- C1: in the source, mount/rsync/umount are sequential statements in a
`try` whose `except` re-raises and which has no `finally`.  When the mount
succeeds and the rsync copy step fails, the run aborts with the unmount never
attempted — the device is left mounted, contradicting the claim that the
unmount step is attempted on every exit path. -/
theorem backup_skips_unmount_after_copy_failure :
    rsyncFails BackupStep.mount = true
    ∧ (backup_critical_data "/mnt/backup" backupTime0 rsyncFails).2
      = ([BackupStep.mkBackupDir, BackupStep.mkMountDir, BackupStep.mount,
          BackupStep.rsync], false)
    ∧ BackupStep.umount ∉ (backup_critical_data "/mnt/backup" backupTime0 rsyncFails).2.1 := by
  decide

/-- C2: on any stored history holding two distinct attribute names, the
pivoted table has a missing cell in every row, so the Isolation Forest fit
raises `ValueError` and `predict_disk_health` propagates it instead of
returning a health score — contradicting the claim that every non-empty
history yields in-range values without raising. -/
theorem predict_raises_on_two_attribute_history :
    predict_disk_health clfAllNormal twoAttrDb "/dev/sda"
      = Except.error "ValueError: input contains NaN"
    ∧ twoAttrDb ≠ [] := by
  decide

/-- C3: the backup decision is the pure comparison
`health_score < backup_threshold`; on the boundary
`health_score = backup_threshold` it is false. -/
theorem should_backup_iff_below_threshold :
    (∀ s t : ℚ, shouldBackup s t = true ↔ s < t)
    ∧ ∀ t : ℚ, shouldBackup t t = false := by
  constructor
  · intro s t
    simp [shouldBackup]
  · intro t
    simp [shouldBackup]

/-- C4: when the stored history for the device is empty, `predict_disk_health`
returns exactly `(1.0, 0.0)`. -/
theorem empty_history_returns_one_zero (clf : List (List Int) → List Int)
    (rows : List HistRow) (device : String)
    (h : rows.filter (fun r => r.device = device) = []) :
    predict_disk_health clf rows device = Except.ok (1, 0) := by
  unfold predict_disk_health fetchHistory
  rw [h]
  simp [sortBy]

/-- Witness for C4 at a concrete empty store. -/
theorem empty_history_returns_one_zero_witness :
    predict_disk_health clfAllNormal [] "/dev/sda" = Except.ok (1, 0) :=
  empty_history_returns_one_zero clfAllNormal [] "/dev/sda" rfl

/-- C5: whenever `predict_disk_health` returns on a non-empty history, the
returned confidence is `min(sample_count / 100, 1.0)` in the number of stored
rows for the device (the 1000-row query cap cannot change the value); the
formula is monotonically non-decreasing in the sample count and is constant
`1.0` from 100 samples on. -/
theorem confidence_is_min_count_formula :
    (∀ (clf : List (List Int) → List Int) (rows : List HistRow)
        (device : String) (s c : ℚ),
        fetchHistory rows device ≠ [] →
        predict_disk_health clf rows device = Except.ok (s, c) →
        c = min ((histCount rows device : ℚ) / 100) 1)
    ∧ (∀ m n : ℕ, m ≤ n → min ((m : ℚ) / 100) 1 ≤ min ((n : ℚ) / 100) 1)
    ∧ (∀ n : ℕ, 100 ≤ n → min ((n : ℚ) / 100) 1 = 1) := by
  refine ⟨?_, ?_, ?_⟩
  · intro clf rows device s c hne hok
    unfold predict_disk_health at hok
    rw [if_neg hne] at hok
    by_cases hm : hasMissing (pivot (fetchHistory rows device)) = true
    · rw [if_pos hm] at hok
      exact absurd hok (by simp)
    · rw [if_neg hm] at hok
      have hc : c = min (((fetchHistory rows device).length : ℚ) / 100) 1 := by
        have := congrArg (fun x => match x with
          | Except.ok (p : ℚ × ℚ) => p.2
          | Except.error _ => 0) hok
        simpa using this.symm
      rw [hc, fetchHistory_length]
      exact conf_cap _
  · intro m n hmn
    have : ((m : ℚ) / 100) ≤ ((n : ℚ) / 100) := by
      apply div_le_div_of_nonneg_right ?_ (by norm_num)
      exact_mod_cast hmn
    exact min_le_min this le_rfl
  · intro n hn
    rw [min_eq_right]
    rw [le_div_iff₀ (by norm_num : (0 : ℚ) < 100)]
    calc (1 : ℚ) * 100 = ((100 : ℕ) : ℚ) := by norm_num
      _ ≤ (n : ℚ) := by exact_mod_cast hn

/-- Witness for C5 at a one-row history. -/
theorem confidence_is_min_count_formula_witness :
    (1 : ℚ) / 100 = min ((histCount oneRowDb "/dev/sda" : ℚ) / 100) 1 :=
  confidence_is_min_count_formula.1 clfAllNormal oneRowDb "/dev/sda" 1 (1 / 100)
    (by decide) (by with_unfolding_all decide)

/-- C6, counterexample: a history of one snapshot with two attributes (two
rows sharing one timestamp) pivots to a table with **two** rows, though the
device's history has only **one** distinct timestamp — the reshaped table's
rows are not the distinct sample timestamps. -/
theorem pivot_rows_not_distinct_timestamps :
    (pivot (fetchHistory twoAttrDb "/dev/sda")).length = 2
    ∧ (((twoAttrDb.filter (fun r => r.device = "/dev/sda")).map
        (fun r => r.timestamp)).dedup).length = 1 := by
  decide

/-- C6, amended: the query selects no timestamp, and the pivot keeps the
frame's default row index, so the table has one row per fetched attribute
row; its columns are the distinct attribute names (without duplicates); each
row carries its own value in its own attribute's column and a missing cell —
absent, not zero — everywhere else, hence exactly one non-missing cell. -/
theorem pivot_one_row_per_fetched_row :
    (∀ rows : List Hist3, (pivot rows).length = rows.length)
    ∧ (∀ rows : List Hist3, pivot rows = rows.map (pivotRow (pivotColumns rows)))
    ∧ (∀ rows : List Hist3, (pivotColumns rows).Nodup)
    ∧ (∀ (rows : List Hist3) (r : Hist3), r ∈ rows →
        (pivotRow (pivotColumns rows) r).countP (fun o => o.isSome) = 1) := by
  refine ⟨?_, ?_, ?_, ?_⟩
  · intro rows
    unfold pivot
    exact List.length_map _ _
  · intro rows
    rfl
  · intro rows
    exact sortBy_nodup _ _ (List.nodup_dedup _)
  · intro rows r hr
    have hmem : r.1 ∈ pivotColumns rows := by
      rw [pivotColumns, sortBy_mem, List.mem_dedup]
      exact List.mem_map_of_mem (fun x => x.1) hr
    have hnd : (pivotColumns rows).Nodup :=
      sortBy_nodup _ _ (List.nodup_dedup _)
    unfold pivotRow
    rw [List.countP_map]
    have hfun : ((fun o : Option Int => o.isSome) ∘
        (fun c => if r.1 = c then some r.2.1 else none)) = fun c => c == r.1 := by
      funext c
      by_cases h : r.1 = c
      · simp [h, Function.comp]
      · simp [h, Function.comp, Ne.symm h]
    rw [hfun]
    exact List.count_eq_one_of_mem hnd hmem

/-- Witness for C6's amended per-row statement at a concrete history. -/
theorem pivot_one_row_per_fetched_row_witness :
    (pivotRow (pivotColumns rows0) ("Raw_Read_Error_Rate", 100, 51)).countP
      (fun o => o.isSome) = 1 :=
  pivot_one_row_per_fetched_row.2.2.2 rows0 ("Raw_Read_Error_Rate", 100, 51)
    (by decide)

/-- C7, counterexample: a non-blank data line with exactly 9
whitespace-separated fields passes the `len(parts) >= 9` guard but then
`parts[9]` raises an uncaught `IndexError` — the parse does not succeed. -/
theorem nine_field_line_parse_fails :
    (pySplitWs "ID ATTRIBUTE_NAME FLAG 100 100 050 TYPE UPDATED WHEN_FAILED").length = 9
    ∧ get_smart_data nineFieldOut = Except.error "IndexError: list index out of range" := by
  decide

/-- C7, amended: the parse skips the first two header lines unexamined, and a
line whose whitespace-split field list has at least **10** fields, with
integer text in field positions 3 and 5, parses successfully, extracting
attribute-name, current-value, threshold and raw-value positionally (raw
value from the fixed 10th position); a 9-field line instead raises. -/
theorem parse_skips_headers_and_needs_ten_fields :
    (∀ (l1 l1' l2 l2' : String) (rest : List String),
        parseFromLines (l1 :: l2 :: rest) = parseFromLines (l1' :: l2' :: rest))
    ∧ (∀ (parts : List String) (v t : Int),
        10 ≤ parts.length →
        pyInt? (parts.getD 3 "") = some v →
        pyInt? (parts.getD 5 "") = some t →
        parseSmartLine parts
          = Except.ok ⟨parts.getD 1 "", v, t, parts.getD 9 ""⟩) := by
  constructor
  · intro l1 l1' l2 l2' rest
    rfl
  · intro parts v t hlen hv ht
    have h9 : 9 < parts.length := by omega
    have hget : parts.get? 9 = some (parts.getD 9 "") := by
      rw [List.getD_eq_getElem?_getD, List.get?_eq_getElem?]
      cases hx : parts[9]? with
      | none =>
        rw [List.getElem?_eq_none_iff] at hx
        omega
      | some x => rfl
    unfold parseSmartLine
    rw [hv, ht, hget]
    rfl

/-- Witness for C7's amended statement at the 10-field line. -/
theorem parse_skips_headers_and_needs_ten_fields_witness :
    parseFromLines ("smartctl 7.2" :: "" :: ["line"])
      = parseFromLines ("other header" :: "x" :: ["line"])
    ∧ parseSmartLine parts10 = Except.ok ⟨"ATTRIBUTE_NAME", 100, 50, "42"⟩ :=
  ⟨parse_skips_headers_and_needs_ten_fields.1 "smartctl 7.2" "other header" "" "x" ["line"],
   parse_skips_headers_and_needs_ten_fields.2 parts10 100 50 (by decide) (by decide)
     (by decide)⟩

/-- C8, counterexample: a failure late in a device's cycle is caught at the
device boundary, yet the rows inserted earlier in that same cycle stay: with
a failing backup, the caught error coexists with new `smart_data` and
`disk_predictions` rows for the device — so "no new rows are appended for D
that cycle" does not hold for every failure. -/
theorem device_failure_can_leave_new_rows :
    (deviceCycle failBackupInput emptyDB).err.isSome = true
    ∧ (deviceCycle failBackupInput emptyDB).db.smart ≠ []
    ∧ (deviceCycle failBackupInput emptyDB).db.preds ≠ [] := by
  with_unfolding_all decide

/-- C8, amended: a telemetry read failure (`smartctl` raising
`CalledProcessError`) leaves both tables untouched for that device and
raises nothing past the boundary; and whatever each device's oracles do, the
loop completes an iteration for every configured device in order — no
device's failure aborts the loop. -/
theorem failures_isolated_per_device :
    (∀ (inp : CycleInput) (db : DB) (e : String),
        inp.smartctl = Except.error e →
        deviceCycle inp db = ⟨db, [], none⟩)
    ∧ (∀ (inps : List CycleInput) (db : DB),
        (monitorCycle inps db).2.filterMap doneDevice?
          = inps.map (fun i => i.device)) := by
  constructor
  · intro inp db e h
    simp [deviceCycle, getSmartDataChecked, h]
  · intro inps db
    induction inps generalizing db with
    | nil => rfl
    | cons i rest ih =>
      simp [monitorCycle, List.filterMap_append, deviceCycle_no_done,
        doneDevice?, ih]

/-- Witness for C8's amended statement: one telemetry-failing device. -/
theorem failures_isolated_per_device_witness :
    deviceCycle telFailInput emptyDB = ⟨emptyDB, [], none⟩
    ∧ (monitorCycle [telFailInput] emptyDB).2.filterMap doneDevice? = ["/dev/sdb"] :=
  ⟨failures_isolated_per_device.1 telFailInput emptyDB "smartctl exited 2" rfl,
   failures_isolated_per_device.2 [telFailInput] emptyDB⟩

/-- C9, counterexample: two distinct run instants inside the same wall-clock
second (differing microseconds) produce the **same** destination directory —
and the directory creation uses `exist_ok=True`, so the second run silently
reuses it. -/
theorem same_second_runs_collide :
    timeMicroA ≠ timeMicroB
    ∧ backupPath "/mnt/backup" timeMicroA = backupPath "/mnt/backup" timeMicroB := by
  decide

/-- C9, amended: the destination is derived from the start instant formatted
at one-second granularity, so two runs get distinct destination directories
exactly when their formatted `YYYYMMDD_HHMMSS` timestamps differ; runs
within the same second share one directory. -/
theorem backup_destinations_distinct_iff_second_differs :
    ∀ (root : String) (d1 d2 : PyDatetime),
      backupPath root d1 = backupPath root d2 ↔ fmtTimestamp d1 = fmtTimestamp d2 := by
  intro root d1 d2
  constructor
  · intro h
    unfold backupPath joinPath at h
    have h1 := (string_append_cancel_left (root ++ "/") _ _).mp h
    exact (string_append_cancel_left "backup_" _ _).mp h1
  · intro h
    unfold backupPath joinPath
    rw [h]

/-- Shape of a device iteration that reaches the scoring step: the smart
rows and the prediction row are inserted and committed, then the backup
decision is evaluated, then (only if it is positive) the backup commands
run; the resulting database does not depend on the backup oracle. -/
theorem deviceCycle_shape (dev : String) (sc0 : Except String String)
    (cl0 : List (List Int) → List Int) (b : BackupStep → Bool)
    (tsa tsb : String) (th0 : ℚ) (db : DB) (atts : List SmartAttr) (s c : ℚ)
    (h1 : getSmartDataChecked sc0 = Except.ok atts) (h2 : atts ≠ [])
    (h3 : predict_disk_health cl0 (storeSmartData tsa dev atts db).smart dev
      = Except.ok (s, c)) :
    deviceCycle ⟨dev, sc0, cl0, b, tsa, tsb, th0⟩ db
      = ⟨{ storeSmartData tsa dev atts db with
            preds := (storeSmartData tsa dev atts db).preds
              ++ [⟨tsb, dev, s, c⟩] },
         [Event.insertSmartRows dev atts.length, Event.commitSmart,
          Event.insertPred dev, Event.commitPred,
          Event.backupDecision (shouldBackup s th0)]
           ++ (if shouldBackup s th0
               then (runBackupSteps b backupSteps).1.map Event.backupCmd
               else []),
         if shouldBackup s th0
         then (if (runBackupSteps b backupSteps).2 then none
               else some "Backup failed")
         else none⟩ := by
  unfold deviceCycle
  rw [h1]
  dsimp only
  rw [if_neg h2, h3]
  dsimp only
  by_cases hb : shouldBackup s th0 = true
  · simp only [hb, if_true]
  · simp only [hb, if_false, Bool.false_eq_true, List.append_nil]

/-- C10: whenever a cycle reaches the scoring step, the `HealthRecord` row is
inserted into `disk_predictions` and committed strictly before the backup
decision is evaluated and before any backup command runs, and the resulting
database is independent of what the backup does — a failing backup neither
prevents nor removes the cycle's persisted rows, and backup execution leaves
both tables unchanged. -/
theorem prediction_committed_before_backup :
    ∀ (inp : CycleInput) (db : DB) (atts : List SmartAttr) (s c : ℚ),
      getSmartDataChecked inp.smartctl = Except.ok atts →
      atts ≠ [] →
      predict_disk_health inp.clf
          (storeSmartData inp.tsStore inp.device atts db).smart inp.device
        = Except.ok (s, c) →
      (deviceCycle inp db
        = ⟨{ storeSmartData inp.tsStore inp.device atts db with
              preds := (storeSmartData inp.tsStore inp.device atts db).preds
                ++ [⟨inp.tsPred, inp.device, s, c⟩] },
           [Event.insertSmartRows inp.device atts.length, Event.commitSmart,
            Event.insertPred inp.device, Event.commitPred,
            Event.backupDecision (shouldBackup s inp.threshold)]
             ++ (if shouldBackup s inp.threshold
                 then (runBackupSteps inp.backup backupSteps).1.map Event.backupCmd
                 else []),
           if shouldBackup s inp.threshold
           then (if (runBackupSteps inp.backup backupSteps).2 then none
                 else some "Backup failed")
           else none⟩)
      ∧ ∀ b2 : BackupStep → Bool,
          (deviceCycle { inp with backup := b2 } db).db = (deviceCycle inp db).db := by
  intro inp db atts s c h1 h2 h3
  obtain ⟨dev, sc0, cl0, bk0, tsa, tsb, th0⟩ := inp
  refine ⟨deviceCycle_shape dev sc0 cl0 bk0 tsa tsb th0 db atts s c h1 h2 h3, ?_⟩
  intro b2
  show (deviceCycle ⟨dev, sc0, cl0, b2, tsa, tsb, th0⟩ db).db
    = (deviceCycle ⟨dev, sc0, cl0, bk0, tsa, tsb, th0⟩ db).db
  rw [deviceCycle_shape dev sc0 cl0 b2 tsa tsb th0 db atts s c h1 h2 h3,
    deviceCycle_shape dev sc0 cl0 bk0 tsa tsb th0 db atts s c h1 h2 h3]

/-- Witness for C10: in the concrete failing-backup cycle, swapping the
backup oracle for a fully successful one changes nothing in the database. -/
theorem prediction_committed_before_backup_witness :
    (deviceCycle { failBackupInput with backup := allStepsOk } emptyDB).db
      = (deviceCycle failBackupInput emptyDB).db :=
  (prediction_committed_before_backup failBackupInput emptyDB
    [⟨"ATTRIBUTE_NAME", 100, 50, "42"⟩] 0 (1 / 100) (by decide) (by decide)
    (by with_unfolding_all decide)).2 allStepsOk

end DiskSentry
